import Mathlib

/-!
Shallow embedding of src/spi.rs of the bme280-rs repository: the SPI bus
transaction adapter (SPIInterface / BME280) built over two externally
supplied capabilities, a duplex byte-transfer capability and a digital
output-pin capability.  Every operation of the adapter is modelled as an
explicit state-passing function over capability oracles; the state records
the full sequence of calls issued to the underlying capabilities (the
trace), the number of pin-set and transfer calls made so far, and the
chip-select level as a recording stub observes it (a failed pin-set call
leaves the recorded level unchanged).  Machine bytes are modelled as Nat;
buffers as List Nat.
-/

namespace BME280

/-- Calls issued to the underlying capabilities, in order: a chip-select
pin-set call with the requested level, or a duplex transfer call with the
buffer contents it was given. -/
inductive Event where
  | setPin (high : Bool)
  | transfer (buf : List Nat)
deriving DecidableEq, Repr

/-- Embedding of the SPIError enum of src/spi.rs: a tagged union over a bus
transfer failure and a pin-operation failure, each wrapping the underlying
capability's native error value. -/
inductive SPIError (SPIE PinE : Type) where
  | SPI (e : SPIE)
  | Pin (e : PinE)
deriving DecidableEq, Repr

/-- Modelled from the spec: the outer error envelope Error of the crate's
root module (not part of src/spi.rs), distinguishing failures that
originated in the bus/pin layer (Bus) from the higher layer's other error
classes; only the Bus variant is produced by the code under src/. -/
inductive Error (E : Type) where
  | Bus (e : E)
  | CalibrationMissing
  | InvalidData
deriving DecidableEq, Repr

/-- Modelled from the spec: BME280_P_T_H_DATA_LEN, the fixed sample-block
byte length (pressure + temperature + humidity raw bytes), a protocol
constant defined outside src/spi.rs; its exact positive value is irrelevant
to the claims. -/
def BME280_P_T_H_DATA_LEN : Nat := 8

/-- Modelled from the spec: BME280_P_T_CALIB_DATA_LEN, the fixed
pressure/temperature calibration block byte length, a protocol constant
defined outside src/spi.rs. -/
def BME280_P_T_CALIB_DATA_LEN : Nat := 26

/-- Modelled from the spec: BME280_H_CALIB_DATA_LEN, the fixed humidity
calibration block byte length, a protocol constant defined outside
src/spi.rs. -/
def BME280_H_CALIB_DATA_LEN : Nat := 7

/-- A behaviour of the two underlying capabilities.  The n-th pin-set call
requesting a given level either succeeds (none) or fails with a pin error;
the n-th duplex transfer call on a given buffer either fails with a bus
error (Sum.inl) or succeeds and overwrites the buffer with the returned
bytes (Sum.inr).  Indexing by call count makes every deterministic mock of
the embedded-hal Transfer and OutputPin traits expressible. -/
structure Caps (SPIE PinE : Type) where
  pinSet : Nat → Bool → Option PinE
  busTransfer : Nat → List Nat → SPIE ⊕ List Nat

/-- The observable state threaded through an adapter run: how many pin-set
calls and transfer calls have been issued, the full ordered trace of calls,
and the chip-select level as recorded by a stub (some true = high /
deasserted, some false = low / asserted); a failed pin-set call leaves the
recorded level unchanged. -/
structure St where
  pinCount : Nat
  busCount : Nat
  trace : List Event
  pinLevel : Option Bool
deriving DecidableEq, Repr

/-- State immediately after a successful construction: no calls issued yet
by any operation, chip-select recorded high. -/
def St.init : St := St.mk 0 0 [] (some true)

/-- Issue one pin-set call to the capability: consult the oracle at the
current pin-call index, record the call in the trace, and update the
recorded level only when the call succeeds. -/
def stepPin {SPIE PinE : Type} (c : Caps SPIE PinE) (b : Bool) (s : St) :
    Option PinE × St :=
  match c.pinSet s.pinCount b with
  | none =>
      (none, St.mk (s.pinCount + 1) s.busCount (s.trace ++ [Event.setPin b]) (some b))
  | some e =>
      (some e, St.mk (s.pinCount + 1) s.busCount (s.trace ++ [Event.setPin b]) s.pinLevel)

/-- Issue one duplex transfer call to the capability: consult the oracle at
the current transfer-call index and record the call (with the buffer it was
given) in the trace. -/
def stepTransfer {SPIE PinE : Type} (c : Caps SPIE PinE) (buf : List Nat) (s : St) :
    (SPIE ⊕ List Nat) × St :=
  (c.busTransfer s.busCount buf,
   St.mk s.pinCount (s.busCount + 1) (s.trace ++ [Event.transfer buf]) s.pinLevel)

/-- Embedding of SPIInterface::read_any_register: set chip-select low
(mapping a pin error to Bus (Pin e)), transfer the 1-byte address buffer,
transfer the data buffer (mapping transfer errors to Bus (SPI e)), set
chip-select high, and return the bytes the data-phase transfer wrote. -/
def read_any_register {SPIE PinE : Type} (c : Caps SPIE PinE)
    (register : Nat) (data : List Nat) (s : St) :
    Except (Error (SPIError SPIE PinE)) (List Nat) × St :=
  match stepPin c false s with
  | (some e, s1) => (Except.error (Error.Bus (SPIError.Pin e)), s1)
  | (none, s1) =>
    match stepTransfer c [register] s1 with
    | (Sum.inl e, s2) => (Except.error (Error.Bus (SPIError.SPI e)), s2)
    | (Sum.inr _, s2) =>
      match stepTransfer c data s2 with
      | (Sum.inl e, s3) => (Except.error (Error.Bus (SPIError.SPI e)), s3)
      | (Sum.inr d, s3) =>
        match stepPin c true s3 with
        | (some e, s4) => (Except.error (Error.Bus (SPIError.Pin e)), s4)
        | (none, s4) => (Except.ok d, s4)

/-- Embedding of Interface::read_register for SPIInterface: a framed read
into a 1-byte buffer, returning the buffer's first byte. -/
def read_register {SPIE PinE : Type} (c : Caps SPIE PinE) (register : Nat) (s : St) :
    Except (Error (SPIError SPIE PinE)) Nat × St :=
  match read_any_register c register [0] s with
  | (Except.error e, s1) => (Except.error e, s1)
  | (Except.ok l, s1) => (Except.ok (l.headD 0), s1)

/-- Embedding of Interface::read_data for SPIInterface: a framed read into
a zero-initialised sample-block buffer, returning the filled buffer. -/
def read_data {SPIE PinE : Type} (c : Caps SPIE PinE) (register : Nat) (s : St) :
    Except (Error (SPIError SPIE PinE)) (List Nat) × St :=
  read_any_register c register (List.replicate BME280_P_T_H_DATA_LEN 0) s

/-- Embedding of Interface::read_pt_calib_data for SPIInterface: a framed
read into a zero-initialised pressure/temperature calibration buffer. -/
def read_pt_calib_data {SPIE PinE : Type} (c : Caps SPIE PinE) (register : Nat) (s : St) :
    Except (Error (SPIError SPIE PinE)) (List Nat) × St :=
  read_any_register c register (List.replicate BME280_P_T_CALIB_DATA_LEN 0) s

/-- Embedding of Interface::read_h_calib_data for SPIInterface: a framed
read into a zero-initialised humidity calibration buffer. -/
def read_h_calib_data {SPIE PinE : Type} (c : Caps SPIE PinE) (register : Nat) (s : St) :
    Except (Error (SPIError SPIE PinE)) (List Nat) × St :=
  read_any_register c register (List.replicate BME280_H_CALIB_DATA_LEN 0) s

/-- Embedding of Interface::write_register for SPIInterface: set
chip-select low, issue one duplex transfer of [register AND 0x7f, payload]
(bit 7 of the address cleared to signal a write), set chip-select high. -/
def write_register {SPIE PinE : Type} (c : Caps SPIE PinE)
    (register : Nat) (payload : Nat) (s : St) :
    Except (Error (SPIError SPIE PinE)) Unit × St :=
  match stepPin c false s with
  | (some e, s1) => (Except.error (Error.Bus (SPIError.Pin e)), s1)
  | (none, s1) =>
    match stepTransfer c [register &&& 0x7f, payload] s1 with
    | (Sum.inl e, s2) => (Except.error (Error.Bus (SPIError.SPI e)), s2)
    | (Sum.inr _, s2) =>
      match stepPin c true s2 with
      | (some e, s3) => (Except.error (Error.Bus (SPIError.Pin e)), s3)
      | (none, s3) => (Except.ok (), s3)

/-- Embedding of the SPIInterface struct: the owned bus and chip-select
handles, modelled as opaque tokens whose identity the lifecycle claims
track. -/
structure SPIInterfaceHandles (SPI CS : Type) where
  spi : SPI
  cs : CS

/-- Modelled from the spec: BME280Common, the composed object of the
crate's root module (not part of src/spi.rs), holding the interface
handles, the delay capability and the (initially absent) calibration
data. -/
structure BME280Common (I D : Type) where
  interface : I
  delay : D
  calibration : Option Unit

/-- Embedding of the BME280 struct of src/spi.rs: wraps a BME280Common over
the SPI interface handles. -/
structure Adapter (SPI CS D : Type) where
  common : BME280Common (SPIInterfaceHandles SPI CS) D

/-- Embedding of BME280::new: force chip-select high (deasserted), mapping
a pin error to Bus (Pin e), then compose the handles into the adapter with
no calibration data. -/
def new {SPIE PinE SPI CS D : Type} (c : Caps SPIE PinE)
    (spi : SPI) (cs : CS) (delay : D) (s : St) :
    Except (Error (SPIError SPIE PinE)) (Adapter SPI CS D) × St :=
  match stepPin c true s with
  | (some e, s1) => (Except.error (Error.Bus (SPIError.Pin e)), s1)
  | (none, s1) =>
      (Except.ok (Adapter.mk (BME280Common.mk (SPIInterfaceHandles.mk spi cs) delay none)), s1)

/-- Embedding of BME280::destroy: consume the adapter and hand the three
underlying handles back, a total function that cannot fail. -/
def destroy {SPI CS D : Type} (a : Adapter SPI CS D) : SPI × CS × D :=
  (a.common.interface.spi, a.common.interface.cs, a.common.delay)

/-- A stub behaviour whose pin calls always succeed and whose transfers
always succeed, echoing the buffer they were given. -/
def allOkCaps : Caps Nat Nat :=
  Caps.mk (fun _ _ => none) (fun _ buf => Sum.inr buf)

/-- A stub behaviour whose pin calls always succeed and whose data-phase
transfer (the second transfer call) fills the whole buffer with 0xAB = 171,
other transfers echoing their input. -/
def echoCaps : Caps Nat Nat :=
  Caps.mk (fun _ _ => none)
    (fun i buf => if i = 1 then Sum.inr (List.replicate buf.length 171) else Sum.inr buf)

/-- A stub behaviour whose pin calls always fail with error 5 and whose
transfers echo their input. -/
def pinFailCaps : Caps Nat Nat :=
  Caps.mk (fun _ _ => some 5) (fun _ buf => Sum.inr buf)

/-- A stub behaviour whose pin calls always succeed and whose transfers
always fail with bus error 7. -/
def busFailCaps : Caps Nat Nat :=
  Caps.mk (fun _ _ => none) (fun _ _ => Sum.inl 7)

/-- A stub behaviour whose pin calls always succeed, whose first transfer
(the address phase) echoes its input, and whose later transfers fail with
bus error 9. -/
def dataFailCaps : Caps Nat Nat :=
  Caps.mk (fun _ _ => none) (fun i buf => if i = 0 then Sum.inr buf else Sum.inl 9)

/-- A stub behaviour whose set-high pin calls fail with error 5, whose
set-low pin calls succeed, and whose transfers echo their input. -/
def pinHighFailCaps : Caps Nat Nat :=
  Caps.mk (fun _ b => if b then some 5 else none) (fun _ buf => Sum.inr buf)

section BranchLemmas

variable {SPIE PinE : Type} (c : Caps SPIE PinE)

/-- Exit path of read_any_register when the initial set-low call fails: the
pin error is wrapped, no transfer is issued, the recorded level is
untouched. -/
lemma rar_pinLow_fail (register : Nat) (data : List Nat) (s : St) (e : PinE)
    (h0 : c.pinSet s.pinCount false = some e) :
    read_any_register c register data s =
      (Except.error (Error.Bus (SPIError.Pin e)),
       St.mk (s.pinCount + 1) s.busCount (s.trace ++ [Event.setPin false]) s.pinLevel) := by
  simp [read_any_register, stepPin, h0]

/-- Exit path of read_any_register when the address-phase transfer fails:
the bus error is wrapped, the set-high call is never issued, the recorded
level stays low. -/
lemma rar_addr_fail (register : Nat) (data : List Nat) (s : St) (e : SPIE)
    (h0 : c.pinSet s.pinCount false = none)
    (h1 : c.busTransfer s.busCount [register] = Sum.inl e) :
    read_any_register c register data s =
      (Except.error (Error.Bus (SPIError.SPI e)),
       St.mk (s.pinCount + 1) (s.busCount + 1)
         (s.trace ++ [Event.setPin false, Event.transfer [register]]) (some false)) := by
  simp [read_any_register, stepPin, stepTransfer, h0, h1]

/-- Exit path of read_any_register when the data-phase transfer fails: the
bus error is wrapped, the set-high call is never issued, the recorded level
stays low. -/
lemma rar_data_fail (register : Nat) (data : List Nat) (s : St) (x : List Nat) (e : SPIE)
    (h0 : c.pinSet s.pinCount false = none)
    (h1 : c.busTransfer s.busCount [register] = Sum.inr x)
    (h2 : c.busTransfer (s.busCount + 1) data = Sum.inl e) :
    read_any_register c register data s =
      (Except.error (Error.Bus (SPIError.SPI e)),
       St.mk (s.pinCount + 1) (s.busCount + 2)
         (s.trace ++ [Event.setPin false, Event.transfer [register], Event.transfer data])
         (some false)) := by
  simp [read_any_register, stepPin, stepTransfer, h0, h1, h2]

/-- Exit path of read_any_register when both transfers succeed but the
final set-high call fails: the pin error is wrapped and the clocked-in
bytes are discarded. -/
lemma rar_pinHigh_fail (register : Nat) (data : List Nat) (s : St)
    (x y : List Nat) (e : PinE)
    (h0 : c.pinSet s.pinCount false = none)
    (h1 : c.busTransfer s.busCount [register] = Sum.inr x)
    (h2 : c.busTransfer (s.busCount + 1) data = Sum.inr y)
    (h3 : c.pinSet (s.pinCount + 1) true = some e) :
    read_any_register c register data s =
      (Except.error (Error.Bus (SPIError.Pin e)),
       St.mk (s.pinCount + 2) (s.busCount + 2)
         (s.trace ++ [Event.setPin false, Event.transfer [register], Event.transfer data,
                      Event.setPin true])
         (some false)) := by
  simp [read_any_register, stepPin, stepTransfer, h0, h1, h2, h3]

/-- Fully successful run of read_any_register: the trace delta is exactly
set-low, address transfer, data transfer, set-high, and the bytes the
data-phase transfer wrote are returned. -/
lemma rar_ok (register : Nat) (data : List Nat) (s : St) (x y : List Nat)
    (h0 : c.pinSet s.pinCount false = none)
    (h1 : c.busTransfer s.busCount [register] = Sum.inr x)
    (h2 : c.busTransfer (s.busCount + 1) data = Sum.inr y)
    (h3 : c.pinSet (s.pinCount + 1) true = none) :
    read_any_register c register data s =
      (Except.ok y,
       St.mk (s.pinCount + 2) (s.busCount + 2)
         (s.trace ++ [Event.setPin false, Event.transfer [register], Event.transfer data,
                      Event.setPin true])
         (some true)) := by
  simp [read_any_register, stepPin, stepTransfer, h0, h1, h2, h3]

/-- Exit path of write_register when the initial set-low call fails: the
pin error is wrapped, no transfer is issued, the recorded level is
untouched. -/
lemma wr_pinLow_fail (register payload : Nat) (s : St) (e : PinE)
    (h0 : c.pinSet s.pinCount false = some e) :
    write_register c register payload s =
      (Except.error (Error.Bus (SPIError.Pin e)),
       St.mk (s.pinCount + 1) s.busCount (s.trace ++ [Event.setPin false]) s.pinLevel) := by
  simp [write_register, stepPin, h0]

/-- Exit path of write_register when the combined transfer fails: the bus
error is wrapped, the set-high call is never issued, the recorded level
stays low. -/
lemma wr_transfer_fail (register payload : Nat) (s : St) (e : SPIE)
    (h0 : c.pinSet s.pinCount false = none)
    (h1 : c.busTransfer s.busCount [register &&& 0x7f, payload] = Sum.inl e) :
    write_register c register payload s =
      (Except.error (Error.Bus (SPIError.SPI e)),
       St.mk (s.pinCount + 1) (s.busCount + 1)
         (s.trace ++ [Event.setPin false, Event.transfer [register &&& 0x7f, payload]])
         (some false)) := by
  simp [write_register, stepPin, stepTransfer, h0, h1]

/-- Exit path of write_register when the transfer succeeds but the final
set-high call fails: the pin error is wrapped even though the combined
address+payload transfer was already issued to the bus. -/
lemma wr_pinHigh_fail (register payload : Nat) (s : St) (x : List Nat) (e : PinE)
    (h0 : c.pinSet s.pinCount false = none)
    (h1 : c.busTransfer s.busCount [register &&& 0x7f, payload] = Sum.inr x)
    (h2 : c.pinSet (s.pinCount + 1) true = some e) :
    write_register c register payload s =
      (Except.error (Error.Bus (SPIError.Pin e)),
       St.mk (s.pinCount + 2) (s.busCount + 1)
         (s.trace ++ [Event.setPin false, Event.transfer [register &&& 0x7f, payload],
                      Event.setPin true])
         (some false)) := by
  simp [write_register, stepPin, stepTransfer, h0, h1, h2]

/-- Fully successful run of write_register: exactly one transfer, of the
two-byte buffer [register AND 0x7f, payload], within one assert/deassert
cycle. -/
lemma wr_ok (register payload : Nat) (s : St) (x : List Nat)
    (h0 : c.pinSet s.pinCount false = none)
    (h1 : c.busTransfer s.busCount [register &&& 0x7f, payload] = Sum.inr x)
    (h2 : c.pinSet (s.pinCount + 1) true = none) :
    write_register c register payload s =
      (Except.ok (),
       St.mk (s.pinCount + 2) (s.busCount + 1)
         (s.trace ++ [Event.setPin false, Event.transfer [register &&& 0x7f, payload],
                      Event.setPin true])
         (some true)) := by
  simp [write_register, stepPin, stepTransfer, h0, h1, h2]

/-- The observable state of read_register is that of the underlying
read_any_register run on a 1-byte buffer. -/
lemma read_register_snd (register : Nat) (s : St) :
    (read_register c register s).2 = (read_any_register c register [0] s).2 := by
  unfold read_register
  rcases h : read_any_register c register [0] s with ⟨r, s1⟩
  cases r <;> simp

/-- As soon as the set-low call succeeds, the first two calls issued by
read_any_register are set-low and the 1-byte address transfer carrying the
address byte unmodified, whatever the later oracle outcomes. -/
lemma rar_trace_two (register : Nat) (data : List Nat) (s : St)
    (h0 : c.pinSet s.pinCount false = none) :
    ((read_any_register c register data s).2.trace.drop s.trace.length).take 2
      = [Event.setPin false, Event.transfer [register]] := by
  rcases h1 : c.busTransfer s.busCount [register] with e | x
  · rw [rar_addr_fail c register data s e h0 h1]
    simp [List.drop_left]
  · rcases h2 : c.busTransfer (s.busCount + 1) data with e | y
    · rw [rar_data_fail c register data s x e h0 h1 h2]
      simp [List.drop_left]
    · rcases h3 : c.pinSet (s.pinCount + 1) true with _ | e
      · rw [rar_ok c register data s x y h0 h1 h2 h3]
        simp [List.drop_left]
      · rw [rar_pinHigh_fail c register data s x y e h0 h1 h2 h3]
        simp [List.drop_left]

/-- As soon as the set-low call succeeds, the first two calls issued by
write_register are set-low and the combined transfer whose first byte is
the address with bit 7 cleared, whatever the later oracle outcomes. -/
lemma wr_trace_two (register payload : Nat) (s : St)
    (h0 : c.pinSet s.pinCount false = none) :
    ((write_register c register payload s).2.trace.drop s.trace.length).take 2
      = [Event.setPin false, Event.transfer [register &&& 0x7f, payload]] := by
  rcases h1 : c.busTransfer s.busCount [register &&& 0x7f, payload] with e | x
  · rw [wr_transfer_fail c register payload s e h0 h1]
    simp [List.drop_left]
  · rcases h2 : c.pinSet (s.pinCount + 1) true with _ | e
    · rw [wr_ok c register payload s x h0 h1 h2]
      simp [List.drop_left]
    · rw [wr_pinHigh_fail c register payload s x e h0 h1 h2]
      simp [List.drop_left]

/-- Whenever read_any_register returns success, the recorded chip-select
level is high. -/
lemma rar_level_ok (register : Nat) (data : List Nat) (s : St) (v : List Nat)
    (h : (read_any_register c register data s).1 = Except.ok v) :
    (read_any_register c register data s).2.pinLevel = some true := by
  rcases h0 : c.pinSet s.pinCount false with _ | e0
  · rcases h1 : c.busTransfer s.busCount [register] with e1 | x
    · rw [rar_addr_fail c register data s e1 h0 h1] at h
      simp at h
    · rcases h2 : c.busTransfer (s.busCount + 1) data with e2 | y
      · rw [rar_data_fail c register data s x e2 h0 h1 h2] at h
        simp at h
      · rcases h3 : c.pinSet (s.pinCount + 1) true with _ | e3
        · rw [rar_ok c register data s x y h0 h1 h2 h3]
        · rw [rar_pinHigh_fail c register data s x y e3 h0 h1 h2 h3] at h
          simp at h
  · rw [rar_pinLow_fail c register data s e0 h0] at h
    simp at h

/-- Whenever read_any_register returns a bus-transfer error, the recorded
chip-select level is low and only the set-low pin call was issued, so the
set-high call never ran. -/
lemma rar_level_spi (register : Nat) (data : List Nat) (s : St) (e : SPIE)
    (h : (read_any_register c register data s).1
        = Except.error (Error.Bus (SPIError.SPI e))) :
    (read_any_register c register data s).2.pinLevel = some false ∧
    (read_any_register c register data s).2.pinCount = s.pinCount + 1 := by
  rcases h0 : c.pinSet s.pinCount false with _ | e0
  · rcases h1 : c.busTransfer s.busCount [register] with e1 | x
    · rw [rar_addr_fail c register data s e1 h0 h1]
      exact ⟨rfl, rfl⟩
    · rcases h2 : c.busTransfer (s.busCount + 1) data with e2 | y
      · rw [rar_data_fail c register data s x e2 h0 h1 h2]
        exact ⟨rfl, rfl⟩
      · rcases h3 : c.pinSet (s.pinCount + 1) true with _ | e3
        · rw [rar_ok c register data s x y h0 h1 h2 h3] at h
          simp at h
        · rw [rar_pinHigh_fail c register data s x y e3 h0 h1 h2 h3] at h
          simp at h
  · rw [rar_pinLow_fail c register data s e0 h0] at h
    simp at h

/-- Whenever read_register returns success, the recorded chip-select level
is high. -/
lemma read_register_level_ok (register : Nat) (s : St) (v : Nat)
    (h : (read_register c register s).1 = Except.ok v) :
    (read_register c register s).2.pinLevel = some true := by
  rcases hr : read_any_register c register [0] s with ⟨r | l, s1⟩
  · unfold read_register at h
    rw [hr] at h
    simp at h
  · unfold read_register
    rw [hr]
    have h2 := rar_level_ok c register [0] s l (by rw [hr])
    rw [hr] at h2
    simpa using h2

/-- Whenever read_register returns a bus-transfer error, the recorded
chip-select level is low and the set-high call never ran. -/
lemma read_register_level_spi (register : Nat) (s : St) (e : SPIE)
    (h : (read_register c register s).1 = Except.error (Error.Bus (SPIError.SPI e))) :
    (read_register c register s).2.pinLevel = some false ∧
    (read_register c register s).2.pinCount = s.pinCount + 1 := by
  rcases hr : read_any_register c register [0] s with ⟨r | l, s1⟩
  · unfold read_register at h
    rw [hr] at h
    simp only [Except.error.injEq] at h
    have h2 := rar_level_spi c register [0] s e (by rw [hr, h])
    rw [hr] at h2
    unfold read_register
    rw [hr]
    simpa using h2
  · unfold read_register at h
    rw [hr] at h
    simp at h

/-- Whenever write_register returns success, the recorded chip-select level
is high. -/
lemma wr_level_ok (register payload : Nat) (s : St)
    (h : (write_register c register payload s).1 = Except.ok ()) :
    (write_register c register payload s).2.pinLevel = some true := by
  rcases h0 : c.pinSet s.pinCount false with _ | e0
  · rcases h1 : c.busTransfer s.busCount [register &&& 0x7f, payload] with e1 | x
    · rw [wr_transfer_fail c register payload s e1 h0 h1] at h
      simp at h
    · rcases h2 : c.pinSet (s.pinCount + 1) true with _ | e2
      · rw [wr_ok c register payload s x h0 h1 h2]
      · rw [wr_pinHigh_fail c register payload s x e2 h0 h1 h2] at h
        simp at h
  · rw [wr_pinLow_fail c register payload s e0 h0] at h
    simp at h

/-- Whenever write_register returns a bus-transfer error, the recorded
chip-select level is low and the set-high call never ran. -/
lemma wr_level_spi (register payload : Nat) (s : St) (e : SPIE)
    (h : (write_register c register payload s).1
        = Except.error (Error.Bus (SPIError.SPI e))) :
    (write_register c register payload s).2.pinLevel = some false ∧
    (write_register c register payload s).2.pinCount = s.pinCount + 1 := by
  rcases h0 : c.pinSet s.pinCount false with _ | e0
  · rcases h1 : c.busTransfer s.busCount [register &&& 0x7f, payload] with e1 | x
    · rw [wr_transfer_fail c register payload s e1 h0 h1]
      exact ⟨rfl, rfl⟩
    · rcases h2 : c.pinSet (s.pinCount + 1) true with _ | e2
      · rw [wr_ok c register payload s x h0 h1 h2] at h
        simp at h
      · rw [wr_pinHigh_fail c register payload s x e2 h0 h1 h2] at h
        simp at h
  · rw [wr_pinLow_fail c register payload s e0 h0] at h
    simp at h

end BranchLemmas

/-- C7: construction fails iff the initial forced deassertion of the select
pin fails, in which case the error is the pin-failure variant wrapping the
pin's error; on success the pin has been set high (recorded level high)
and no duplex transfer has been issued during construction (transfer count
unchanged, trace delta is only the set-high call). -/
theorem claim_C7 (SPIE PinE SPI CS D : Type) (c : Caps SPIE PinE)
    (spi : SPI) (cs : CS) (delay : D) (s : St) :
    (∀ e, c.pinSet s.pinCount true = some e →
      new c spi cs delay s =
        (Except.error (Error.Bus (SPIError.Pin e)),
         St.mk (s.pinCount + 1) s.busCount (s.trace ++ [Event.setPin true]) s.pinLevel))
    ∧ (c.pinSet s.pinCount true = none →
      new c spi cs delay s =
        (Except.ok (Adapter.mk
            (BME280Common.mk (SPIInterfaceHandles.mk spi cs) delay none)),
         St.mk (s.pinCount + 1) s.busCount (s.trace ++ [Event.setPin true]) (some true))) := by
  constructor
  · intro e h
    simp [new, stepPin, h]
  · intro h
    simp [new, stepPin, h]

/-- Witness for C7: with the always-succeeding stub, construction succeeds,
the recorded pin level is high, and no transfer call was issued. -/
theorem claim_C7_witness :
    new allOkCaps (0 : Nat) (1 : Nat) (2 : Nat) St.init =
      (Except.ok (Adapter.mk
          (BME280Common.mk (SPIInterfaceHandles.mk 0 1) 2 none)),
       St.mk 1 0 [Event.setPin true] (some true)) :=
  (claim_C7 Nat Nat Nat Nat Nat allOkCaps 0 1 2 St.init).2 rfl

/-- C8: destruction is a total function (it cannot fail) and an adapter
built by a successful construction from (spi, cs, delay) destroys back to
exactly (spi, cs, delay), identity-preserving. -/
theorem claim_C8 (SPIE PinE SPI CS D : Type) (c : Caps SPIE PinE)
    (spi : SPI) (cs : CS) (delay : D) (s s1 : St) (a : Adapter SPI CS D)
    (h : new c spi cs delay s = (Except.ok a, s1)) :
    destroy a = (spi, cs, delay) := by
  rcases h0 : c.pinSet s.pinCount true with _ | e
  · simp only [new, stepPin, h0, Prod.mk.injEq] at h
    obtain ⟨h1, -⟩ := h
    cases h1
    rfl
  · simp [new, stepPin, h0] at h

/-- Witness for C8: a concrete round trip of construction followed by
destruction returns the three handles 0, 1, 2. -/
theorem claim_C8_witness :
    destroy (Adapter.mk
      (BME280Common.mk (SPIInterfaceHandles.mk (0 : Nat) (1 : Nat)) (2 : Nat) none)) =
      (0, 1, 2) :=
  claim_C8 Nat Nat Nat Nat Nat allOkCaps 0 1 2 St.init
    (St.mk 1 0 [Event.setPin true] (some true)) _ rfl

/-- C2: for every address and each of the four read operations, when the
pin-low call, both transfers and the pin-high call succeed, the calls
issued to the underlying capabilities are exactly set-low, a 1-byte address
transfer, a data transfer of the operation's fixed length (1,
BME280_P_T_H_DATA_LEN, BME280_P_T_CALIB_DATA_LEN, BME280_H_CALIB_DATA_LEN
respectively), then set-high, in that order, and the operation returns the
bytes the data-phase transfer wrote into the buffer. -/
theorem claim_C2 (SPIE PinE : Type) (c : Caps SPIE PinE) (register : Nat) (s : St)
    (x : List Nat)
    (h0 : c.pinSet s.pinCount false = none)
    (h1 : c.busTransfer s.busCount [register] = Sum.inr x)
    (h3 : c.pinSet (s.pinCount + 1) true = none) :
    (∀ y, c.busTransfer (s.busCount + 1) [0] = Sum.inr y →
      read_register c register s =
        (Except.ok (y.headD 0),
         St.mk (s.pinCount + 2) (s.busCount + 2)
           (s.trace ++ [Event.setPin false, Event.transfer [register],
                        Event.transfer [0], Event.setPin true])
           (some true)))
    ∧ (∀ y, c.busTransfer (s.busCount + 1) (List.replicate BME280_P_T_H_DATA_LEN 0)
          = Sum.inr y →
      read_data c register s =
        (Except.ok y,
         St.mk (s.pinCount + 2) (s.busCount + 2)
           (s.trace ++ [Event.setPin false, Event.transfer [register],
                        Event.transfer (List.replicate BME280_P_T_H_DATA_LEN 0),
                        Event.setPin true])
           (some true)))
    ∧ (∀ y, c.busTransfer (s.busCount + 1) (List.replicate BME280_P_T_CALIB_DATA_LEN 0)
          = Sum.inr y →
      read_pt_calib_data c register s =
        (Except.ok y,
         St.mk (s.pinCount + 2) (s.busCount + 2)
           (s.trace ++ [Event.setPin false, Event.transfer [register],
                        Event.transfer (List.replicate BME280_P_T_CALIB_DATA_LEN 0),
                        Event.setPin true])
           (some true)))
    ∧ (∀ y, c.busTransfer (s.busCount + 1) (List.replicate BME280_H_CALIB_DATA_LEN 0)
          = Sum.inr y →
      read_h_calib_data c register s =
        (Except.ok y,
         St.mk (s.pinCount + 2) (s.busCount + 2)
           (s.trace ++ [Event.setPin false, Event.transfer [register],
                        Event.transfer (List.replicate BME280_H_CALIB_DATA_LEN 0),
                        Event.setPin true])
           (some true))) := by
  refine ⟨fun y h2 => ?_, fun y h2 => ?_, fun y h2 => ?_, fun y h2 => ?_⟩
  · have h := rar_ok c register [0] s x y h0 h1 h2 h3
    simp [read_register, h]
  · exact rar_ok c register _ s x y h0 h1 h2 h3
  · exact rar_ok c register _ s x y h0 h1 h2 h3
  · exact rar_ok c register _ s x y h0 h1 h2 h3

/-- Witness for C2: reading a 1-byte register at address 0x88 = 136 with a
bus stub that echoes 0xAB = 171 on the data phase and a pin stub that
always succeeds yields Ok 171 and the trace low, address transfer, data
transfer, high. -/
theorem claim_C2_witness :
    read_register echoCaps 136 St.init =
      (Except.ok 171,
       St.mk 2 2 [Event.setPin false, Event.transfer [136],
                  Event.transfer [0], Event.setPin true] (some true)) :=
  (claim_C2 Nat Nat echoCaps 136 St.init [136] rfl rfl rfl).1 [171] rfl

/-- C3: for every address and payload, a fully successful write_register
issues exactly one duplex transfer within one assert/deassert cycle; the
transferred buffer is [register AND 0x7f, payload], whose first byte has
bit 7 cleared regardless of the address's original bit 7 while all lower
bits of the address are preserved, and whose second byte is the payload
unchanged. -/
theorem claim_C3 (SPIE PinE : Type) (c : Caps SPIE PinE) (register payload : Nat)
    (s : St) (x : List Nat)
    (h0 : c.pinSet s.pinCount false = none)
    (h1 : c.busTransfer s.busCount [register &&& 0x7f, payload] = Sum.inr x)
    (h2 : c.pinSet (s.pinCount + 1) true = none) :
    write_register c register payload s =
      (Except.ok (),
       St.mk (s.pinCount + 2) (s.busCount + 1)
         (s.trace ++ [Event.setPin false, Event.transfer [register &&& 0x7f, payload],
                      Event.setPin true])
         (some true))
    ∧ Nat.testBit (register &&& 0x7f) 7 = false
    ∧ (∀ i, i < 7 → Nat.testBit (register &&& 0x7f) i = Nat.testBit register i) := by
  refine ⟨wr_ok c register payload s x h0 h1 h2, ?_, ?_⟩
  · have h127 : Nat.testBit 127 7 = false := by decide
    simp [Nat.testBit_land, h127]
  · intro i hi
    have h127 : Nat.testBit 127 i = true := by interval_cases i <;> decide
    simp [Nat.testBit_land, h127]

/-- Witness for C3: writing value 0x3C = 60 to address 0xF4 = 244 produces
exactly one transfer call, with buffer [0x74, 0x3C] = [116, 60]. -/
theorem claim_C3_witness :
    write_register allOkCaps 244 60 St.init =
      (Except.ok (),
       St.mk 2 1 [Event.setPin false, Event.transfer [116, 60], Event.setPin true]
         (some true)) :=
  (claim_C3 Nat Nat allOkCaps 244 60 St.init [116, 60] rfl rfl rfl).1

/-- C4: for every operation (all four reads and write_register), if the
initial set-low call fails, no duplex transfer is attempted (transfer count
unchanged, trace delta is only the failed set-low call) and the returned
error is the pin-failure variant wrapping exactly the pin's reported
error. -/
theorem claim_C4 (SPIE PinE : Type) (c : Caps SPIE PinE) (register payload : Nat)
    (s : St) (e : PinE)
    (h0 : c.pinSet s.pinCount false = some e) :
    read_register c register s =
      (Except.error (Error.Bus (SPIError.Pin e)),
       St.mk (s.pinCount + 1) s.busCount (s.trace ++ [Event.setPin false]) s.pinLevel)
    ∧ read_data c register s =
      (Except.error (Error.Bus (SPIError.Pin e)),
       St.mk (s.pinCount + 1) s.busCount (s.trace ++ [Event.setPin false]) s.pinLevel)
    ∧ read_pt_calib_data c register s =
      (Except.error (Error.Bus (SPIError.Pin e)),
       St.mk (s.pinCount + 1) s.busCount (s.trace ++ [Event.setPin false]) s.pinLevel)
    ∧ read_h_calib_data c register s =
      (Except.error (Error.Bus (SPIError.Pin e)),
       St.mk (s.pinCount + 1) s.busCount (s.trace ++ [Event.setPin false]) s.pinLevel)
    ∧ write_register c register payload s =
      (Except.error (Error.Bus (SPIError.Pin e)),
       St.mk (s.pinCount + 1) s.busCount (s.trace ++ [Event.setPin false]) s.pinLevel) := by
  refine ⟨?_, ?_, ?_, ?_, ?_⟩
  · have h := rar_pinLow_fail c register [0] s e h0
    simp [read_register, h]
  · exact rar_pinLow_fail c register _ s e h0
  · exact rar_pinLow_fail c register _ s e h0
  · exact rar_pinLow_fail c register _ s e h0
  · exact wr_pinLow_fail c register payload s e h0

/-- Witness for C4: with a pin stub that always fails with error 5, every
operation returns the pin-failure error wrapping 5 and issues no
transfer. -/
theorem claim_C4_witness :
    read_register pinFailCaps 10 St.init =
      (Except.error (Error.Bus (SPIError.Pin 5)),
       St.mk 1 0 [Event.setPin false] (some true))
    ∧ read_data pinFailCaps 10 St.init =
      (Except.error (Error.Bus (SPIError.Pin 5)),
       St.mk 1 0 [Event.setPin false] (some true))
    ∧ read_pt_calib_data pinFailCaps 10 St.init =
      (Except.error (Error.Bus (SPIError.Pin 5)),
       St.mk 1 0 [Event.setPin false] (some true))
    ∧ read_h_calib_data pinFailCaps 10 St.init =
      (Except.error (Error.Bus (SPIError.Pin 5)),
       St.mk 1 0 [Event.setPin false] (some true))
    ∧ write_register pinFailCaps 10 20 St.init =
      (Except.error (Error.Bus (SPIError.Pin 5)),
       St.mk 1 0 [Event.setPin false] (some true)) :=
  claim_C4 Nat Nat pinFailCaps 10 20 St.init 5 rfl

/-- C5: for every operation, if a duplex transfer fails (address phase or
data phase of a read, or the single combined phase of a write), the
returned error is the bus-transfer-failure variant wrapping exactly the
transfer's reported error, the set-high call is never invoked (the trace
ends at the failed transfer) and the select line is left asserted low. -/
theorem claim_C5 (SPIE PinE : Type) (c : Caps SPIE PinE) (register payload : Nat)
    (s : St)
    (h0 : c.pinSet s.pinCount false = none) :
    (∀ e, c.busTransfer s.busCount [register] = Sum.inl e →
      read_register c register s =
        (Except.error (Error.Bus (SPIError.SPI e)),
         St.mk (s.pinCount + 1) (s.busCount + 1)
           (s.trace ++ [Event.setPin false, Event.transfer [register]]) (some false))
      ∧ read_data c register s =
        (Except.error (Error.Bus (SPIError.SPI e)),
         St.mk (s.pinCount + 1) (s.busCount + 1)
           (s.trace ++ [Event.setPin false, Event.transfer [register]]) (some false))
      ∧ read_pt_calib_data c register s =
        (Except.error (Error.Bus (SPIError.SPI e)),
         St.mk (s.pinCount + 1) (s.busCount + 1)
           (s.trace ++ [Event.setPin false, Event.transfer [register]]) (some false))
      ∧ read_h_calib_data c register s =
        (Except.error (Error.Bus (SPIError.SPI e)),
         St.mk (s.pinCount + 1) (s.busCount + 1)
           (s.trace ++ [Event.setPin false, Event.transfer [register]]) (some false)))
    ∧ (∀ x e, c.busTransfer s.busCount [register] = Sum.inr x →
      (c.busTransfer (s.busCount + 1) [0] = Sum.inl e →
        read_register c register s =
          (Except.error (Error.Bus (SPIError.SPI e)),
           St.mk (s.pinCount + 1) (s.busCount + 2)
             (s.trace ++ [Event.setPin false, Event.transfer [register],
                          Event.transfer [0]]) (some false)))
      ∧ (c.busTransfer (s.busCount + 1) (List.replicate BME280_P_T_H_DATA_LEN 0)
            = Sum.inl e →
        read_data c register s =
          (Except.error (Error.Bus (SPIError.SPI e)),
           St.mk (s.pinCount + 1) (s.busCount + 2)
             (s.trace ++ [Event.setPin false, Event.transfer [register],
                          Event.transfer (List.replicate BME280_P_T_H_DATA_LEN 0)])
             (some false)))
      ∧ (c.busTransfer (s.busCount + 1) (List.replicate BME280_P_T_CALIB_DATA_LEN 0)
            = Sum.inl e →
        read_pt_calib_data c register s =
          (Except.error (Error.Bus (SPIError.SPI e)),
           St.mk (s.pinCount + 1) (s.busCount + 2)
             (s.trace ++ [Event.setPin false, Event.transfer [register],
                          Event.transfer (List.replicate BME280_P_T_CALIB_DATA_LEN 0)])
             (some false)))
      ∧ (c.busTransfer (s.busCount + 1) (List.replicate BME280_H_CALIB_DATA_LEN 0)
            = Sum.inl e →
        read_h_calib_data c register s =
          (Except.error (Error.Bus (SPIError.SPI e)),
           St.mk (s.pinCount + 1) (s.busCount + 2)
             (s.trace ++ [Event.setPin false, Event.transfer [register],
                          Event.transfer (List.replicate BME280_H_CALIB_DATA_LEN 0)])
             (some false))))
    ∧ (∀ e, c.busTransfer s.busCount [register &&& 0x7f, payload] = Sum.inl e →
      write_register c register payload s =
        (Except.error (Error.Bus (SPIError.SPI e)),
         St.mk (s.pinCount + 1) (s.busCount + 1)
           (s.trace ++ [Event.setPin false,
                        Event.transfer [register &&& 0x7f, payload]]) (some false))) := by
  refine ⟨fun e h1 => ⟨?_, ?_, ?_, ?_⟩, fun x e hx => ⟨fun h2 => ?_, fun h2 => ?_,
    fun h2 => ?_, fun h2 => ?_⟩, fun e h1 => ?_⟩
  · have h := rar_addr_fail c register [0] s e h0 h1
    simp [read_register, h]
  · exact rar_addr_fail c register _ s e h0 h1
  · exact rar_addr_fail c register _ s e h0 h1
  · exact rar_addr_fail c register _ s e h0 h1
  · have h := rar_data_fail c register [0] s x e h0 hx h2
    simp [read_register, h]
  · exact rar_data_fail c register _ s x e h0 hx h2
  · exact rar_data_fail c register _ s x e h0 hx h2
  · exact rar_data_fail c register _ s x e h0 hx h2
  · exact wr_transfer_fail c register payload s e h0 h1

/-- Witness for C5: with a stub whose data-phase transfer fails with bus
error 9, read_data returns the bus-transfer-failure error wrapping 9, no
pin-high call is in the trace and the recorded select level stays low. -/
theorem claim_C5_witness :
    read_data dataFailCaps 250 St.init =
      (Except.error (Error.Bus (SPIError.SPI 9)),
       St.mk 1 2 [Event.setPin false, Event.transfer [250],
                  Event.transfer (List.replicate BME280_P_T_H_DATA_LEN 0)]
         (some false)) :=
  ((claim_C5 Nat Nat dataFailCaps 250 0 St.init rfl).2.1 [250] 9 rfl).2.1 rfl

/-- C6: for every operation, if all transfers succeed but the final
set-high call fails, the returned error is the pin-failure variant wrapping
the pin's error, and for the reads the bytes already clocked in by the
data-phase transfer are discarded rather than returned. -/
theorem claim_C6 (SPIE PinE : Type) (c : Caps SPIE PinE) (register payload : Nat)
    (s : St) (e : PinE)
    (h0 : c.pinSet s.pinCount false = none)
    (h3 : c.pinSet (s.pinCount + 1) true = some e) :
    (∀ x y, c.busTransfer s.busCount [register] = Sum.inr x →
      c.busTransfer (s.busCount + 1) [0] = Sum.inr y →
      read_register c register s =
        (Except.error (Error.Bus (SPIError.Pin e)),
         St.mk (s.pinCount + 2) (s.busCount + 2)
           (s.trace ++ [Event.setPin false, Event.transfer [register],
                        Event.transfer [0], Event.setPin true]) (some false)))
    ∧ (∀ x y, c.busTransfer s.busCount [register] = Sum.inr x →
      c.busTransfer (s.busCount + 1) (List.replicate BME280_P_T_H_DATA_LEN 0)
          = Sum.inr y →
      read_data c register s =
        (Except.error (Error.Bus (SPIError.Pin e)),
         St.mk (s.pinCount + 2) (s.busCount + 2)
           (s.trace ++ [Event.setPin false, Event.transfer [register],
                        Event.transfer (List.replicate BME280_P_T_H_DATA_LEN 0),
                        Event.setPin true]) (some false)))
    ∧ (∀ x y, c.busTransfer s.busCount [register] = Sum.inr x →
      c.busTransfer (s.busCount + 1) (List.replicate BME280_P_T_CALIB_DATA_LEN 0)
          = Sum.inr y →
      read_pt_calib_data c register s =
        (Except.error (Error.Bus (SPIError.Pin e)),
         St.mk (s.pinCount + 2) (s.busCount + 2)
           (s.trace ++ [Event.setPin false, Event.transfer [register],
                        Event.transfer (List.replicate BME280_P_T_CALIB_DATA_LEN 0),
                        Event.setPin true]) (some false)))
    ∧ (∀ x y, c.busTransfer s.busCount [register] = Sum.inr x →
      c.busTransfer (s.busCount + 1) (List.replicate BME280_H_CALIB_DATA_LEN 0)
          = Sum.inr y →
      read_h_calib_data c register s =
        (Except.error (Error.Bus (SPIError.Pin e)),
         St.mk (s.pinCount + 2) (s.busCount + 2)
           (s.trace ++ [Event.setPin false, Event.transfer [register],
                        Event.transfer (List.replicate BME280_H_CALIB_DATA_LEN 0),
                        Event.setPin true]) (some false)))
    ∧ (∀ x, c.busTransfer s.busCount [register &&& 0x7f, payload] = Sum.inr x →
      write_register c register payload s =
        (Except.error (Error.Bus (SPIError.Pin e)),
         St.mk (s.pinCount + 2) (s.busCount + 1)
           (s.trace ++ [Event.setPin false,
                        Event.transfer [register &&& 0x7f, payload],
                        Event.setPin true]) (some false))) := by
  refine ⟨fun x y h1 h2 => ?_, fun x y h1 h2 => ?_, fun x y h1 h2 => ?_,
    fun x y h1 h2 => ?_, fun x h1 => ?_⟩
  · have h := rar_pinHigh_fail c register [0] s x y e h0 h1 h2 h3
    simp [read_register, h]
  · exact rar_pinHigh_fail c register _ s x y e h0 h1 h2 h3
  · exact rar_pinHigh_fail c register _ s x y e h0 h1 h2 h3
  · exact rar_pinHigh_fail c register _ s x y e h0 h1 h2 h3
  · exact wr_pinHigh_fail c register payload s x e h0 h1 h3

/-- Witness for C6: with a stub whose set-high calls fail with error 5,
read_register returns the pin-failure error wrapping 5 even though the
data-phase transfer already succeeded; the clocked-in byte is not
surfaced. -/
theorem claim_C6_witness :
    read_register pinHighFailCaps 1 St.init =
      (Except.error (Error.Bus (SPIError.Pin 5)),
       St.mk 2 2 [Event.setPin false, Event.transfer [1],
                  Event.transfer [0], Event.setPin true] (some false)) :=
  (claim_C6 Nat Nat pinHighFailCaps 1 0 St.init 5 rfl rfl).1 [1] [0] rfl rfl

/-- Counterexample to C1 as stated: with a pin stub that always succeeds
and a bus stub whose transfers always fail, read_register returns control
to the caller with an error while the chip-select line is left asserted
low, not restored high, refuting the claim that the pin is always restored
high before the operation returns on every exit path. -/
theorem claim_C1_counterexample :
    (read_register busFailCaps 136 St.init).1
        = Except.error (Error.Bus (SPIError.SPI 7))
    ∧ (read_register busFailCaps 136 St.init).2.pinLevel = some false
    ∧ (read_register busFailCaps 136 St.init).2.pinLevel ≠ some true := by
  refine ⟨rfl, rfl, by decide⟩

/-- C1 amended: for every operation of the adapter and every behaviour of
the underlying capabilities, the chip-select pin is restored high before
the operation returns whenever the operation succeeds; when the operation
returns a bus-transfer error the select line is left asserted low and the
set-high call was never issued (only the single set-low pin call ran). -/
theorem claim_C1_amended (SPIE PinE : Type) (c : Caps SPIE PinE)
    (register payload : Nat) (s : St) :
    ((∀ v, (read_register c register s).1 = Except.ok v →
        (read_register c register s).2.pinLevel = some true)
      ∧ (∀ e, (read_register c register s).1
            = Except.error (Error.Bus (SPIError.SPI e)) →
        (read_register c register s).2.pinLevel = some false ∧
        (read_register c register s).2.pinCount = s.pinCount + 1))
    ∧ ((∀ v, (read_data c register s).1 = Except.ok v →
        (read_data c register s).2.pinLevel = some true)
      ∧ (∀ e, (read_data c register s).1
            = Except.error (Error.Bus (SPIError.SPI e)) →
        (read_data c register s).2.pinLevel = some false ∧
        (read_data c register s).2.pinCount = s.pinCount + 1))
    ∧ ((∀ v, (read_pt_calib_data c register s).1 = Except.ok v →
        (read_pt_calib_data c register s).2.pinLevel = some true)
      ∧ (∀ e, (read_pt_calib_data c register s).1
            = Except.error (Error.Bus (SPIError.SPI e)) →
        (read_pt_calib_data c register s).2.pinLevel = some false ∧
        (read_pt_calib_data c register s).2.pinCount = s.pinCount + 1))
    ∧ ((∀ v, (read_h_calib_data c register s).1 = Except.ok v →
        (read_h_calib_data c register s).2.pinLevel = some true)
      ∧ (∀ e, (read_h_calib_data c register s).1
            = Except.error (Error.Bus (SPIError.SPI e)) →
        (read_h_calib_data c register s).2.pinLevel = some false ∧
        (read_h_calib_data c register s).2.pinCount = s.pinCount + 1))
    ∧ ((∀ v, (write_register c register payload s).1 = Except.ok v →
        (write_register c register payload s).2.pinLevel = some true)
      ∧ (∀ e, (write_register c register payload s).1
            = Except.error (Error.Bus (SPIError.SPI e)) →
        (write_register c register payload s).2.pinLevel = some false ∧
        (write_register c register payload s).2.pinCount = s.pinCount + 1)) := by
  refine ⟨⟨?_, ?_⟩, ⟨?_, ?_⟩, ⟨?_, ?_⟩, ⟨?_, ?_⟩, ⟨?_, ?_⟩⟩
  · exact fun v h => read_register_level_ok c register s v h
  · exact fun e h => read_register_level_spi c register s e h
  · exact fun v h => rar_level_ok c register _ s v h
  · exact fun e h => rar_level_spi c register _ s e h
  · exact fun v h => rar_level_ok c register _ s v h
  · exact fun e h => rar_level_spi c register _ s e h
  · exact fun v h => rar_level_ok c register _ s v h
  · exact fun e h => rar_level_spi c register _ s e h
  · exact fun v h => wr_level_ok c register payload s h
  · exact fun e h => wr_level_spi c register payload s e h

/-- Witness for the amended C1: on a fully successful read_register run the
recorded chip-select level ends high. -/
theorem claim_C1_amended_witness :
    (read_register allOkCaps 5 St.init).2.pinLevel = some true :=
  (claim_C1_amended Nat Nat allOkCaps 5 9 St.init).1.1 0 rfl

/-- C9: for every address, once the set-low call succeeds each of the four
read operations issues a 1-byte address-phase transfer carrying the address
byte unmodified (bit 7 not cleared), while write_register is the one
operation whose transfer carries the address with bit 7 cleared. -/
theorem claim_C9 (SPIE PinE : Type) (c : Caps SPIE PinE) (register payload : Nat)
    (s : St)
    (h0 : c.pinSet s.pinCount false = none) :
    ((read_register c register s).2.trace.drop s.trace.length).take 2
        = [Event.setPin false, Event.transfer [register]]
    ∧ ((read_data c register s).2.trace.drop s.trace.length).take 2
        = [Event.setPin false, Event.transfer [register]]
    ∧ ((read_pt_calib_data c register s).2.trace.drop s.trace.length).take 2
        = [Event.setPin false, Event.transfer [register]]
    ∧ ((read_h_calib_data c register s).2.trace.drop s.trace.length).take 2
        = [Event.setPin false, Event.transfer [register]]
    ∧ ((write_register c register payload s).2.trace.drop s.trace.length).take 2
        = [Event.setPin false, Event.transfer [register &&& 0x7f, payload]] := by
  refine ⟨?_, ?_, ?_, ?_, ?_⟩
  · rw [read_register_snd]
    exact rar_trace_two c register [0] s h0
  · exact rar_trace_two c register _ s h0
  · exact rar_trace_two c register _ s h0
  · exact rar_trace_two c register _ s h0
  · exact wr_trace_two c register payload s h0

/-- Witness for C9: at address 0x88 = 136 (bit 7 set), the address-phase
transfer of read_register carries 136 unmodified even though every
transfer fails, while write_register's transfer carries 136 AND 0x7f = 8
with bit 7 cleared. -/
theorem claim_C9_witness :
    ((read_register busFailCaps 136 St.init).2.trace.drop St.init.trace.length).take 2
        = [Event.setPin false, Event.transfer [136]]
    ∧ ((write_register busFailCaps 136 60 St.init).2.trace.drop
          St.init.trace.length).take 2
        = [Event.setPin false, Event.transfer [8, 60]] :=
  ⟨(claim_C9 Nat Nat busFailCaps 136 60 St.init rfl).1,
   (claim_C9 Nat Nat busFailCaps 136 60 St.init rfl).2.2.2.2⟩

/-- C10: write_register is not atomic on its final error path: when the
combined transfer succeeds but the concluding set-high call fails, the
address+payload buffer has already been issued to the bus (the transfer
call is in the trace and the transfer count advanced) yet the caller
receives the pin-failure error wrapping e; the very same error value is
returned by a run whose set-low call fails with e before any transfer, so
the error does not distinguish a write that reached the device from one
that never did. -/
theorem claim_C10 (SPIE PinE : Type) (c c' : Caps SPIE PinE)
    (register payload : Nat) (s s' : St) (x : List Nat) (e : PinE)
    (h0 : c.pinSet s.pinCount false = none)
    (h1 : c.busTransfer s.busCount [register &&& 0x7f, payload] = Sum.inr x)
    (h2 : c.pinSet (s.pinCount + 1) true = some e)
    (k0 : c'.pinSet s'.pinCount false = some e) :
    write_register c register payload s =
      (Except.error (Error.Bus (SPIError.Pin e)),
       St.mk (s.pinCount + 2) (s.busCount + 1)
         (s.trace ++ [Event.setPin false,
                      Event.transfer [register &&& 0x7f, payload],
                      Event.setPin true]) (some false))
    ∧ write_register c' register payload s' =
      (Except.error (Error.Bus (SPIError.Pin e)),
       St.mk (s'.pinCount + 1) s'.busCount (s'.trace ++ [Event.setPin false])
         s'.pinLevel)
    ∧ (write_register c register payload s).1
        = (write_register c' register payload s').1 := by
  have hA := wr_pinHigh_fail c register payload s x e h0 h1 h2
  have hB := wr_pinLow_fail c' register payload s' e k0
  refine ⟨hA, hB, ?_⟩
  rw [hA, hB]

/-- Witness for C10: writing 0x3C to 0xF4 with a stub whose set-high call
fails with error 5 yields the same error value as with a stub whose set-low
call fails with error 5, although only the first run issued the transfer. -/
theorem claim_C10_witness :
    write_register pinHighFailCaps 244 60 St.init =
      (Except.error (Error.Bus (SPIError.Pin 5)),
       St.mk 2 1 [Event.setPin false, Event.transfer [116, 60], Event.setPin true]
         (some false))
    ∧ write_register pinFailCaps 244 60 St.init =
      (Except.error (Error.Bus (SPIError.Pin 5)),
       St.mk 1 0 [Event.setPin false] (some true))
    ∧ (write_register pinHighFailCaps 244 60 St.init).1
        = (write_register pinFailCaps 244 60 St.init).1 :=
  claim_C10 Nat Nat pinHighFailCaps pinFailCaps 244 60 St.init St.init
    [116, 60] 5 rfl rfl rfl rfl

end BME280
